import Mathlib

/-
Verification development for the relic-rush room-graph game.

The Python sources under src/ are shallowly embedded here:

* Python `dict` values are insertion-ordered association lists
  `List (String × α)`; `d[k]` is `List.lookup` (a miss models `KeyError`).
* Python `set` / `frozenset` of strings is `Finset String`.
* Python exceptions are modelled with `Except`: `PyErr` enumerates the
  exception classes the embedded code can raise.
* Python `float` arithmetic is modelled with exact rationals `ℚ`; `int(x)`
  is `Rat.floor` (all converted quantities in the embedded code are
  nonnegative, where Python truncation toward zero coincides with the
  floor).
* `datetime` values are modelled by their ISO-8601 text; functions that call
  `datetime.now()` take the current text as an explicit `now` argument.
* Python `Enum` members are distinct runtime values that are not equal to
  their string `.value`; a dict keyed by strings therefore never hits on an
  enum-member key.  `PyKey` makes that dictionary-key discipline explicit.
-/

/-- src/models/domain/status.py: `GameStatus`. -/
inductive GameStatus
  | IN_PROGRESS
  | COMPLETED
  | GAME_OVER
deriving DecidableEq

/-- `GameStatus.value` strings (`in_progress` / `completed` / `game_over`). -/
def GameStatus.value : GameStatus → String
  | .IN_PROGRESS => "in_progress"
  | .COMPLETED => "completed"
  | .GAME_OVER => "game_over"

/-- `GameStatus(value)`: enum construction from the stored string; `none`
models the `ValueError` Python raises on an unknown value. -/
def GameStatus.ofValue? : String → Option GameStatus
  | "in_progress" => some .IN_PROGRESS
  | "completed" => some .COMPLETED
  | "game_over" => some .GAME_OVER
  | _ => none

/-- `GameStatus.is_terminal`: true for COMPLETED or GAME_OVER. -/
def GameStatus.is_terminal (s : GameStatus) : Bool :=
  s == .COMPLETED || s == .GAME_OVER

/-- src/models/domain/difficulty.py: `Difficulty(Enum)`.  It is a plain
`Enum` (no `str` mixin), so a member is never equal to its `.value`. -/
inductive Difficulty
  | EASY
  | MEDIUM
  | HARD
deriving DecidableEq

/-- `Difficulty.value` / `Difficulty.label`. -/
def Difficulty.value : Difficulty → String
  | .EASY => "easy"
  | .MEDIUM => "medium"
  | .HARD => "hard"

/-- `Difficulty(s)`: enum lookup by value; `none` models `ValueError`. -/
def Difficulty.ofValue? : String → Option Difficulty
  | "easy" => some .EASY
  | "medium" => some .MEDIUM
  | "hard" => some .HARD
  | _ => none

/-- A Python dictionary key as a runtime value.  `StandardScore` keys its
multiplier table by `str`, while the lookup at scoring.py:93 passes the
`Difficulty` enum member; the two variants are never equal, exactly as the
two Python values hash and compare unequal. -/
inductive PyKey
  | str (s : String)
  | difficulty (d : Difficulty)
deriving DecidableEq, BEq

/-- Exception classes raised by the embedded code. -/
inductive LevelValidationErr
  | missingKeys (keys : List String)
  | startRoomMissing
  | invalidExit (room target : String)
  | missingCoords (room : String)
  | villainCount
  | unsolvable
deriving DecidableEq

/-- Python exceptions surfaced by the embedded functions.  `fuelExhausted`
is an artifact of the bounded BFS encoding and is never produced when the
loop is run with the fuel bound computed by `compute_optimal_moves`
on the inputs evaluated below. -/
inductive PyErr
  | validation (e : LevelValidationErr)
  | keyError
  | attributeError
  | typeError
  | zeroDivisionError
  | valueError (msg : String)
  | fuelExhausted
deriving DecidableEq

/-- src/models/domain/item.py: the `Item` variants the factory constructs
(`Relic(name)` and `Villain(name)`; the base class is never instantiated). -/
inductive Item
  | relic (name : String)
  | villain (name : String)
deriving DecidableEq

/-- The `name` field shared by all items. -/
def Item.name : Item → String
  | .relic n => n
  | .villain n => n

/-- src/models/domain/room.py: `Room`. -/
structure Room where
  name : String
  exits : List (String × String)
  item : Option Item
deriving DecidableEq

/-- src/models/domain/map_graph.py: `MapGraph`. -/
structure MapGraph where
  rooms : List (String × Room)
  coords : List (String × (Int × Int))
deriving DecidableEq

/-- `MapGraph.move`: destination of an exit, or `none`; `self.rooms[room]`
raises `KeyError` on an undeclared room. -/
def MapGraph.move (g : MapGraph) (current_room direction : String) :
    Except PyErr (Option String) :=
  match g.rooms.lookup current_room with
  | none => .error .keyError
  | some r => .ok (r.exits.lookup direction)

/-- `MapGraph.neighbors`: the direction → room alist of a room's exits. -/
def MapGraph.neighbors (g : MapGraph) (room_name : String) :
    Except PyErr (List (String × String)) :=
  match g.rooms.lookup room_name with
  | none => .error .keyError
  | some r => .ok r.exits

/-- src/models/domain/player.py: `Player`. -/
structure Player where
  location : String
  inventory : Finset String := ∅
deriving DecidableEq

/-- src/models/domain/game_state.py: `GameState`.  Timestamps are carried
as their ISO-8601 text. -/
structure GameState where
  player : Player
  visited_rooms : Finset String := ∅
  collected_items : Finset String := ∅
  move_count : Nat := 0
  status : GameStatus := .IN_PROGRESS
  message : Option String := none
  event_log : List String := []
  started_at : String := ""
  updated_at : String := ""
  encountered_villain : Bool := false
deriving DecidableEq

/-- `GameState.visit`: record the room and refresh `updated_at`
(`datetime.now` is passed in as `now`). -/
def GameState.visit (s : GameState) (room_name : String) (now : String) :
    GameState :=
  { s with visited_rooms := insert room_name s.visited_rooms, updated_at := now }

/-- `Item.on_enter` hooks: `Relic` collects itself into the state,
`Villain` sets the encounter flag; each appends one log line. -/
def Item.on_enter (it : Item) (s : GameState) : GameState :=
  match it with
  | .relic n =>
      { s with collected_items := insert n s.collected_items,
               event_log := s.event_log ++ ["Collected " ++ n] }
  | .villain _ =>
      { s with encountered_villain := true,
               event_log := s.event_log ++ ["Encountered the villain"] }

/-- src/models/domain/rules.py: `StandardRules` (the only `LevelRules`
implementation the factory ever installs). -/
structure StandardRules where
  required_items : Finset String
deriving DecidableEq

/-- `StandardRules.check`: on a villain room, a superset of the required
items wins, otherwise the game is lost; other rooms are untouched.
`state.collected_items >= self.required_items` is the superset test. -/
def StandardRules.check (r : StandardRules) (s : GameState) (room : Room) :
    GameState :=
  match room.item with
  | some (.villain _) =>
      if r.required_items ⊆ s.collected_items then
        { s with status := .COMPLETED, message := some "You defeated the villain!" }
      else
        { s with status := .GAME_OVER, message := some "You found the villain too soon." }
  | _ => s

/-- The runtime value `Level.scoring` can hold.  level_factory.py:117 passes
`difficulty.scoring_policy` — the bound method object itself, without
calling it — so a factory-built level stores `boundMethod d`, not a
strategy instance. -/
inductive ScoringSlot
  | strategy (isMaxMoves : Bool)
  | boundMethod (d : Difficulty)
deriving DecidableEq

/-- The runtime value `Level.visibility` can hold; level_factory.py:116
likewise stores the bound method `difficulty.visibility_policy`. -/
inductive VisibilitySlot
  | policy (tier : Difficulty)
  | boundMethod (d : Difficulty)
deriving DecidableEq

/-- src/models/domain/level.py: `Level` (frozen dataclass). -/
structure Level where
  id : String
  name : String
  difficulty : Difficulty
  start_room : String
  map : MapGraph
  rules : StandardRules
  visibility : VisibilitySlot
  scoring : ScoringSlot
  optimal_moves : Option Nat := none
deriving DecidableEq

/-- scoring.py:74: `StandardScore.DIFFICULTY_MULTIPLIER`, a dict keyed by
the strings "easy" / "medium" / "hard". -/
def DIFFICULTY_MULTIPLIER : List (PyKey × ℚ) :=
  [(.str "easy", 3 / 4), (.str "medium", 1), (.str "hard", 5 / 4)]

/-- src/models/domain/scoring.py:80: `StandardScore.calculate`.  The
progress ratio is 0 when no items are required; a non-COMPLETED status
returns the progress score alone.  On the COMPLETED branch the code divides
`level.optimal_moves / state.move_count` (a `None` optimum is a `TypeError`,
a zero move count a `ZeroDivisionError`) and then indexes
`DIFFICULTY_MULTIPLIER[level.difficulty]` with the `Difficulty` enum member,
which can never match the table's string keys. -/
def StandardScore.calculate (state : GameState) (level : Level) :
    Except PyErr Int :=
  let collected : ℚ := state.collected_items.card
  let total_required : ℚ := level.rules.required_items.card
  let progress : ℚ := if total_required ≠ 0 then collected / total_required else 0
  let progress_score : Int := Rat.floor (500 * progress)
  if state.status ≠ .COMPLETED then
    .ok progress_score
  else
    match level.optimal_moves with
    | none => .error .typeError
    | some om =>
        if state.move_count = 0 then .error .zeroDivisionError
        else
          let efficiency : ℚ := min ((om : ℚ) / (state.move_count : ℚ)) 1
          let efficiency_score : Int := Rat.floor (1000 * efficiency)
          match DIFFICULTY_MULTIPLIER.lookup (PyKey.difficulty level.difficulty) with
          | none => .error .keyError
          | some multiplier =>
              .ok (Rat.floor ((1000 : ℚ) + (progress_score : ℚ) + (efficiency_score : ℚ) * multiplier))

/-- src/models/domain/scoring.py:118: `MaxMovesScore.calculate`.  Starts
from the `StandardScore` result (so it propagates that call's exception),
returns it unchanged unless the game is COMPLETED with a known optimum that
was exceeded, and otherwise subtracts the overage penalty, floored at 0. -/
def MaxMovesScore.calculate (state : GameState) (level : Level) :
    Except PyErr Int := do
  let base_score ← StandardScore.calculate state level
  if state.status ≠ .COMPLETED then
    return base_score
  else
    match level.optimal_moves with
    | none => return base_score
    | some om =>
        if state.move_count ≤ om then return base_score
        else
          let overage : ℚ := (state.move_count : ℚ) - (om : ℚ)
          if om = 0 then .error .zeroDivisionError
          else
            let penalty_ratio : ℚ := min (overage / (om : ℚ)) 1
            let penalty : Int := Rat.floor ((base_score : ℚ) * penalty_ratio * (1 / 2 : ℚ))
            return max (base_score - penalty) 0

/-- difficulty.py:69: `Difficulty.scoring_policy` resolves the strategy a
tier would use once the method is actually called (`MaxMovesScore` only at
HARD). -/
def Difficulty.scoring_policy : Difficulty → ScoringSlot
  | .EASY => .strategy false
  | .MEDIUM => .strategy false
  | .HARD => .strategy true

/-- Dispatch of `.calculate` on a strategy instance. -/
def ScoringSlot.calc (slot : ScoringSlot) (state : GameState) (level : Level) :
    Except PyErr Int :=
  match slot with
  | .strategy true => MaxMovesScore.calculate state level
  | .strategy false => StandardScore.calculate state level
  | .boundMethod _ => .error .attributeError

/-- An `item` entry of a raw room definition: `{type, name}`. -/
structure ItemDefn where
  type : String
  name : String
deriving DecidableEq

/-- A room entry of a raw level definition.  `data.get("exits", {})`
defaults to an empty dict and `data.get("item")` to `None`, which the
plain list and the `Option` absorb. -/
structure RoomDefn where
  exits : List (String × String) := []
  item : Option ItemDefn := none
deriving DecidableEq

/-- The `rules` entry of a raw level definition. -/
structure RulesDefn where
  required_items : List String
deriving DecidableEq

/-- A raw level definition dict.  Each required top-level key is an
`Option` so that `required_keys - defn.keys()` (validation.py:33) can be
expressed; `none` is an absent key. -/
structure LevelDefn where
  id : Option String := none
  name : Option String := none
  difficulty : Option String := none
  start_room : Option String := none
  rooms : Option (List (String × RoomDefn)) := none
  coords : Option (List (String × (Int × Int))) := none
  rules : Option RulesDefn := none
deriving DecidableEq

/-- `required_keys - defn.keys()` of validation.py:33 (in declaration
order; Python's set difference carries the same members unordered). -/
def LevelDefn.missingKeys (d : LevelDefn) : List String :=
  (if d.id.isSome then [] else ["id"]) ++
  (if d.name.isSome then [] else ["name"]) ++
  (if d.difficulty.isSome then [] else ["difficulty"]) ++
  (if d.start_room.isSome then [] else ["start_room"]) ++
  (if d.rooms.isSome then [] else ["rooms"]) ++
  (if d.coords.isSome then [] else ["coords"]) ++
  (if d.rules.isSome then [] else ["rules"])

/-- validation.py:43: the first exit of any room whose target is not a
declared room, scanning rooms and each room's exits in insertion order. -/
def firstInvalidExit (rooms : List (String × RoomDefn)) :
    Option (String × String) :=
  rooms.firstM fun (room, data) =>
    data.exits.firstM fun (_, target) =>
      if (rooms.lookup target).isNone then some (room, target) else none

/-- validation.py:49: the first declared room missing from `coords`. -/
def firstMissingCoords (rooms : List (String × RoomDefn))
    (coords : List (String × (Int × Int))) : Option String :=
  rooms.firstM fun (room, _) =>
    if (coords.lookup room).isNone then some room else none

/-- validation.py:54: the rooms whose item is present and of type
`villain` (Python truthiness of `r.get("item")`: `None` is falsy). -/
def villainRooms (rooms : List (String × RoomDefn)) : List RoomDefn :=
  (rooms.map Prod.snd).filter fun r =>
    match r.item with
    | some it => it.type == "villain"
    | none => false

/-- src/models/behavior/validation.py:19: `validate_level_definition`.
The five structural checks run in source order, raising on the first
violation: required keys, start room declared, exit targets declared,
coordinates for every room, exactly one villain.  Past the missing-keys
check every key is present, so the `getD` defaults below are never the
value actually examined. -/
def validate_level_definition (defn : LevelDefn) :
    Except LevelValidationErr Unit :=
  if defn.missingKeys ≠ [] then .error (.missingKeys defn.missingKeys)
  else
    let rooms := defn.rooms.getD []
    let start := defn.start_room.getD ""
    let coords := defn.coords.getD []
    if (rooms.lookup start).isNone then
      .error .startRoomMissing
    else
      match firstInvalidExit rooms with
      | some (room, target) => .error (.invalidExit room target)
      | none =>
          match firstMissingCoords rooms coords with
          | some room => .error (.missingCoords room)
          | none =>
              if (villainRooms rooms).length ≠ 1 then .error .villainCount
              else .ok ()

/-- One dequeued entry of the BFS over `(room, collected-item-set)` pairs,
with its distance from the start. -/
abbrev BfsEntry := String × Finset String × Nat

/-- Outcome of the bounded BFS loop: a distance, a raised exception, or
fuel exhaustion (the encoding artifact, see `PyErr.fuelExhausted`). -/
inductive BfsOut
  | found (dist : Nat)
  | raised (e : PyErr)
  | fuelOut
deriving DecidableEq

/-- The `while queue` loop of validation.py:78.  A dequeued pair already
dequeued before is skipped; otherwise the room's item is folded into the
carried item set when its name is required, the loop returns the distance
as soon as the room's item is *named* "Villain" (the name, not the
`Villain` type, is what line 89 compares) and the set covers the required
items, and otherwise every neighbor is enqueued.  An empty queue raises
`LevelValidationError("Level is not solvable")`. -/
def bfsLoop (g : MapGraph) (required_items : Finset String) :
    Nat → List BfsEntry → Finset (String × Finset String) → BfsOut
  | 0, _, _ => .fuelOut
  | _ + 1, [], _ => .raised (.validation .unsolvable)
  | fuel + 1, (room, items, dist) :: queue, visited =>
      if (room, items) ∈ visited then
        bfsLoop g required_items fuel queue visited
      else
        let visited := insert (room, items) visited
        match g.rooms.lookup room with
        | none => .raised .keyError
        | some r =>
            let items :=
              match r.item with
              | some it => if it.name ∈ required_items then insert it.name items else items
              | none => items
            let villainHere :=
              match r.item with
              | some it => it.name == "Villain"
              | none => false
            if villainHere && decide (required_items ⊆ items) then
              .found dist
            else
              bfsLoop g required_items fuel
                (queue ++ r.exits.map fun d => (d.2, items, dist + 1)) visited

/-- The declared room names of a map. -/
def bfsKeys (g : MapGraph) : Finset String := (g.rooms.map Prod.fst).toFinset

/-- The finite `(room, collected-item-set)` state space the BFS explores:
carried item sets only ever grow by inserting required names. -/
def bfsSpace (g : MapGraph) (req : Finset String) :
    Finset (String × Finset String) :=
  bfsKeys g ×ˢ req.powerset

/-- The largest out-degree of any declared room. -/
def bfsMaxDeg (g : MapGraph) : Nat :=
  (g.rooms.map fun p => p.2.exits.length).foldr max 0

/-- Fuel that the loop can never exhaust (`bfsLoop_ne_fuelOut`): at most
`rooms × 2^required + 1` dequeued entries are processed (the rest are
skipped), and each processed entry enqueues at most `bfsMaxDeg` successors. -/
def bfsFuel (g : MapGraph) (required_items : Finset String) : Nat :=
  1 + (g.rooms.length * 2 ^ required_items.card + 1) * (bfsMaxDeg g + 1)

/-- src/models/behavior/validation.py:62: `compute_optimal_moves`. -/
def compute_optimal_moves (map_graph : MapGraph) (start_room : String)
    (required_items : Finset String) : Except PyErr Nat :=
  match bfsLoop map_graph required_items
      (bfsFuel map_graph required_items) [(start_room, ∅, 0)] ∅ with
  | .found dist => .ok dist
  | .raised e => .error e
  | .fuelOut => .error .fuelExhausted

/-- level_factory.py:74: build `Room` objects; an item entry of a type
other than `relic` / `villain` raises `ValueError`. -/
def buildRooms : List (String × RoomDefn) → Except PyErr (List (String × Room))
  | [] => .ok []
  | (name, data) :: rest => do
      let item : Option Item ←
        match data.item with
        | none => pure none
        | some item_def =>
            if item_def.type == "relic" then pure (some (.relic item_def.name))
            else if item_def.type == "villain" then pure (some (.villain item_def.name))
            else .error (.valueError ("Unknown item type: " ++ item_def.type))
      let tail ← buildRooms rest
      .ok ((name, { name := name, exits := data.exits, item := item }) :: tail)

/-- src/models/behavior/level_factory.py:39: `LevelFactory.from_definition`.
Structural validation runs first; rooms and the map are built; the BFS
solvability proof supplies `optimal_moves`; the difficulty enum resolves
last.  The `visibility` and `scoring` slots receive the *bound methods*
`difficulty.visibility_policy` and `difficulty.scoring_policy`
(lines 116-117 pass the methods without calling them). -/
def LevelFactory.from_definition (defn : LevelDefn) : Except PyErr Level :=
  match validate_level_definition defn with
  | .error e => .error (.validation e)
  | .ok () =>
      match defn.id, defn.name, defn.difficulty, defn.start_room,
          defn.rooms, defn.coords, defn.rules with
      | some idv, some namev, some diffv, some start,
        some roomDefs, some coordsv, some rulesv => do
          let rooms ← buildRooms roomDefs
          let map_graph : MapGraph := { rooms := rooms, coords := coordsv }
          let required_items : Finset String := rulesv.required_items.toFinset
          let optimal_moves ← compute_optimal_moves map_graph start required_items
          match Difficulty.ofValue? diffv with
          | none => .error (.valueError ("not a valid Difficulty: " ++ diffv))
          | some difficulty =>
              .ok { id := idv, name := namev, difficulty := difficulty,
                    start_room := start, map := map_graph,
                    rules := { required_items := required_items },
                    visibility := .boundMethod difficulty,
                    scoring := .boundMethod difficulty,
                    optimal_moves := some optimal_moves }
      | _, _, _, _, _, _, _ =>
          -- Unreachable: validation already guaranteed every key is present.
          .error .keyError

/-- The `player` sub-dict produced by serialization. -/
structure PlayerDict where
  location : String
  inventory : List String
deriving DecidableEq

/-- The JSON-compatible dict produced by `gamestate_to_dict`
(src/models/records/serialization.py:31).  Sets are emitted as lists
(Python's iteration order over a set is unspecified; the embedding
enumerates in sorted order, which a set round-trip cannot observe),
datetimes as their ISO-8601 text. -/
structure GameStateDict where
  player : PlayerDict
  visited_rooms : List String
  collected_items : List String
  move_count : Nat
  status : String
  message : Option String
  event_log : List String
  encountered_villain : Bool
  started_at : String
  updated_at : String
deriving DecidableEq

/-- src/models/records/serialization.py:31: `gamestate_to_dict`. -/
def gamestate_to_dict (state : GameState) : GameStateDict :=
  { player := { location := state.player.location,
                inventory := state.player.inventory.sort (· ≤ ·) },
    visited_rooms := state.visited_rooms.sort (· ≤ ·),
    collected_items := state.collected_items.sort (· ≤ ·),
    move_count := state.move_count,
    status := state.status.value,
    message := state.message,
    event_log := state.event_log,
    encountered_villain := state.encountered_villain,
    started_at := state.started_at,
    updated_at := state.updated_at }

/-- src/models/records/serialization.py:67: `gamestate_from_dict`.  The
only parse that can fail on a dict of this shape is the `GameStatus`
enum construction (`ValueError`); `datetime.fromisoformat` is the identity
on the ISO text the serializer emitted. -/
def gamestate_from_dict (data : GameStateDict) : Except PyErr GameState :=
  match GameStatus.ofValue? data.status with
  | none => .error (.valueError ("not a valid GameStatus: " ++ data.status))
  | some st =>
      .ok { player := { location := data.player.location,
                        inventory := data.player.inventory.toFinset },
            visited_rooms := data.visited_rooms.toFinset,
            collected_items := data.collected_items.toFinset,
            move_count := data.move_count,
            status := st,
            message := data.message,
            event_log := data.event_log,
            encountered_villain := data.encountered_villain,
            started_at := data.started_at,
            updated_at := data.updated_at }

/-- src/models/records/game_save.py: the active-session record. -/
structure GameSave where
  user_email : String
  level_id : String
  state : GameState
deriving DecidableEq

/-- The `snapshot` dict of a completed-run record
(src/controllers/game.py:285). -/
structure ResultSnapshot where
  final_room : String
  inventory : List String
  encountered_villain : Bool
  optimal_moves : Option Nat
deriving DecidableEq

/-- src/models/records/game_result.py: the immutable completed-run
record as the controller builds it. -/
structure GameResult where
  user_email : String
  level_id : String
  status : GameStatus
  score : Int
  moves : Nat
  items_collected : Nat
  finished_at : String
  snapshot : ResultSnapshot
deriving DecidableEq

/-- The persistence state behind the three repositories the controller
coordinates: the read-only level source, the active-session store keyed
by user email, and the append-only history store. -/
structure Stores where
  levels : List (String × Level)
  saves : List (String × GameSave)
  history : List GameResult
deriving DecidableEq

/-- `SaveRepository.upsert_active`: atomic overwrite-by-user-identity. -/
def Stores.upsert_active (st : Stores) (save : GameSave) : Stores :=
  { st with saves :=
      (st.saves.filter fun p => p.1 ≠ save.user_email) ++ [(save.user_email, save)] }

/-- `SaveRepository.delete_active`. -/
def Stores.delete_active (st : Stores) (user_email : String) : Stores :=
  { st with saves := st.saves.filter fun p => p.1 ≠ user_email }

/-- `HistoryRepository.add`: append-only. -/
def Stores.history_add (st : Stores) (r : GameResult) : Stores :=
  { st with history := st.history ++ [r] }

/-- Result of a controller action: the (in-place mutated) session state,
the persistence state, and the exception the action raised, if any.
Python mutates `state` before a late raise, so the state reflects every
mutation made up to the raise point. -/
structure ActionOut where
  state : GameState
  stores : Stores
  err : Option PyErr
deriving DecidableEq

/-- game.py:240: `GameController._autosave`, one autosave per user. -/
def GameController.autosave (stores : Stores) (user_email level_id : String)
    (state : GameState) : Stores :=
  stores.upsert_active { user_email := user_email, level_id := level_id, state := state }

/-- game.py:254: `GameController._persist_or_finalize`.  A non-terminal
state is autosaved.  A terminal state is finalized: the level's scoring
slot is asked for `.calculate` — which on a factory-built level holds the
bound method `difficulty.scoring_policy`, an object with no `calculate`
attribute (`AttributeError`) — then the score is computed, the immutable
result is appended to history and the autosave is deleted. -/
def GameController.persist_or_finalize (stores : Stores)
    (user_email level_id : String) (state : GameState) (now : String) :
    ActionOut :=
  if ¬ state.status.is_terminal then
    { state := state,
      stores := GameController.autosave stores user_email level_id state,
      err := none }
  else
    match stores.levels.lookup level_id with
    | none => { state := state, stores := stores,
                err := some (.valueError ("Unknown level_id: " ++ level_id)) }
    | some level =>
        match level.scoring with
        | .boundMethod _ =>
            { state := state, stores := stores, err := some .attributeError }
        | .strategy isMaxMoves =>
            match (ScoringSlot.strategy isMaxMoves).calc state level with
            | .error e => { state := state, stores := stores, err := some e }
            | .ok score =>
                let result : GameResult :=
                  { user_email := user_email, level_id := level_id,
                    status := state.status, score := score,
                    moves := state.move_count,
                    items_collected := state.collected_items.card,
                    finished_at := now,
                    snapshot :=
                      { final_room := state.player.location,
                        inventory := state.collected_items.sort (· ≤ ·),
                        encountered_villain := state.encountered_villain,
                        optimal_moves := level.optimal_moves } }
                { state := state,
                  stores := (stores.history_add result).delete_active user_email,
                  err := none }

/-- src/controllers/game.py:127: `GameController.move`.  Terminal states
short-circuit; an unknown level id raises `ValueError`; a direction that
is not a declared exit appends a wall-bump event and autosaves without
advancing; otherwise the player advances, the entered room's item hook
and the rules run, and the move persists or finalizes. -/
def GameController.move (stores : Stores) (user_email level_id : String)
    (state : GameState) (direction : String) (now : String) : ActionOut :=
  if state.status.is_terminal then
    { state := { state with message := some "Game already ended." },
      stores := stores, err := none }
  else
    match stores.levels.lookup level_id with
    | none => { state := state, stores := stores,
                err := some (.valueError ("Unknown level_id: " ++ level_id)) }
    | some level =>
        match level.map.rooms.lookup state.player.location with
        | none => { state := state, stores := stores, err := some .keyError }
        | some room =>
            match room.exits.lookup direction with
            | none =>
                let state :=
                  { state with message := some "You bumped into a wall.",
                               event_log := state.event_log ++ ["Bumped into a wall"] }
                { state := state,
                  stores := GameController.autosave stores user_email level_id state,
                  err := none }
            | some next_room =>
                let state :=
                  { state with player := { state.player with location := next_room },
                               move_count := state.move_count + 1 }
                let state := state.visit next_room now
                let state :=
                  { state with
                      event_log := state.event_log ++
                        ["Moved " ++ direction ++ " to " ++ next_room],
                      message := none }
                match level.map.rooms.lookup next_room with
                | none => { state := state, stores := stores, err := some .keyError }
                | some entered_room =>
                    let state :=
                      match entered_room.item with
                      | some it => it.on_enter state
                      | none => state
                    let state := level.rules.check state entered_room
                    GameController.persist_or_finalize stores user_email
                      level_id state now

/-- Iterated `MapGraph.move`: the room reached from `room` by taking the
declared exits named in the list, `none` as soon as a direction is not a
declared exit of the current room (or the room itself is undeclared).
This is the path semantics of "a sequence of valid moves". -/
def followMoves (g : MapGraph) : String → List String → Option String
  | room, [] => some room
  | room, d :: ds =>
      match g.rooms.lookup room with
      | none => none
      | some r =>
          match r.exits.lookup d with
          | none => none
          | some nxt => followMoves g nxt ds

/-- Fixture: a structurally valid definition whose unique villain-typed
item ("Boss", in the unreachable room "Lair") is not named "Villain",
while the reachable room "End" holds a *relic* named "Villain".  No move
sequence from "Start" reaches the villain, yet the BFS termination test
of validation.py:89 (`item.name == "Villain"`) fires in "End". -/
def advDefn : LevelDefn :=
  { id := some "adv", name := some "Adversarial", difficulty := some "easy",
    start_room := some "Start",
    rooms := some
      [("Start", { exits := [("East", "End")] }),
       ("End", { exits := [("West", "Start")],
                 item := some { type := "relic", name := "Villain" } }),
       ("Lair", { exits := [],
                  item := some { type := "villain", name := "Boss" } })],
    coords := some [("Start", (0, 0)), ("End", (1, 0)), ("Lair", (5, 5))],
    rules := some { required_items := [] } }

/-- The map the factory builds from `advDefn`. -/
def advMap : MapGraph :=
  { rooms :=
      [("Start", { name := "Start", exits := [("East", "End")], item := none }),
       ("End", { name := "End", exits := [("West", "Start")],
                 item := some (.relic "Villain") }),
       ("Lair", { name := "Lair", exits := [],
                  item := some (.villain "Boss") })],
    coords := [("Start", (0, 0)), ("End", (1, 0)), ("Lair", (5, 5))] }

/-- The `Level` the factory returns for `advDefn`. -/
def advLevel : Level :=
  { id := "adv", name := "Adversarial", difficulty := .EASY,
    start_room := "Start", map := advMap,
    rules := { required_items := ∅ },
    visibility := .boundMethod .EASY, scoring := .boundMethod .EASY,
    optimal_moves := some 1 }

/-- Fixture: the two-room scenario level of spec §8 (relic "X" required,
villain named "Villain" next door). -/
def defnA : LevelDefn :=
  { id := some "lvl", name := some "Scenario", difficulty := some "medium",
    start_room := some "Start",
    rooms := some
      [("Start", { exits := [("East", "End")],
                   item := some { type := "relic", name := "X" } }),
       ("End", { exits := [("West", "Start")],
                 item := some { type := "villain", name := "Villain" } })],
    coords := some [("Start", (0, 0)), ("End", (1, 0))],
    rules := some { required_items := ["X"] } }

/-- The `Level` the factory returns for `defnA`. -/
def lvlA : Level :=
  { id := "lvl", name := "Scenario", difficulty := .MEDIUM,
    start_room := "Start",
    map :=
      { rooms :=
          [("Start", { name := "Start", exits := [("East", "End")],
                       item := some (.relic "X") }),
           ("End", { name := "End", exits := [("West", "Start")],
                     item := some (.villain "Villain") })],
        coords := [("Start", (0, 0)), ("End", (1, 0))] },
    rules := { required_items := {"X"} },
    visibility := .boundMethod .MEDIUM, scoring := .boundMethod .MEDIUM,
    optimal_moves := some 1 }

/-- A session on `lvlA` as `start_new_run` leaves it. -/
def st2 : GameState :=
  { player := { location := "Start" }, visited_rooms := {"Start"},
    message := some "Started Scenario", started_at := "t0", updated_at := "t0" }

/-- Persistence state holding `lvlA` and the active session `st2`. -/
def stores2 : Stores :=
  { levels := [("lvl", lvlA)],
    saves := [("u", { user_email := "u", level_id := "lvl", state := st2 })],
    history := [] }

deriving instance DecidableEq for Except

/-- Fixture: a medium-tier level with two required items (one collected in
`st3p` / both in `st3c`) and a known optimum of 1 move. -/
def lvl3 : Level :=
  { id := "l3", name := "L3", difficulty := .MEDIUM, start_room := "A",
    map := { rooms := [], coords := [] },
    rules := { required_items := {"X", "Y"} },
    visibility := .policy .MEDIUM, scoring := .strategy false,
    optimal_moves := some 1 }

/-- An in-progress session holding one of `lvl3`'s two required items. -/
def st3p : GameState :=
  { player := { location := "A" }, collected_items := {"X"}, move_count := 2,
    status := .IN_PROGRESS }

/-- A completed session on `lvl3` with both items, at the optimum. -/
def st3c : GameState :=
  { player := { location := "A" }, collected_items := {"X", "Y"}, move_count := 1,
    status := .COMPLETED }

/-- Fixture: a hard-tier level (the tier whose policy resolution selects
`MaxMovesScore`), optimum 1 move, one required item. -/
def lvl8 : Level :=
  { id := "l8", name := "L8", difficulty := .HARD, start_room := "A",
    map := { rooms := [], coords := [] },
    rules := { required_items := {"X"} },
    visibility := .policy .HARD, scoring := .strategy true,
    optimal_moves := some 1 }

/-- A completed session on `lvl8` that overshot the optimum (3 > 1). -/
def st8 : GameState :=
  { player := { location := "A" }, collected_items := {"X"}, move_count := 3,
    status := .COMPLETED }

/-- A lost (non-COMPLETED) session on `lvl8`. -/
def st8p : GameState :=
  { player := { location := "A" }, collected_items := ∅, move_count := 3,
    status := .GAME_OVER }

/-- Fixture for the totality counterexample: an easy-tier level and a
completed one-move session satisfying `move_count ≥ 1`. -/
def lvl10c : Level :=
  { id := "l10", name := "L10", difficulty := .EASY, start_room := "A",
    map := { rooms := [], coords := [] },
    rules := { required_items := {"X"} },
    visibility := .policy .EASY, scoring := .strategy false,
    optimal_moves := some 1 }

/-- The completed session of the totality counterexample. -/
def st10c : GameState :=
  { player := { location := "A" }, collected_items := {"X"}, move_count := 2,
    status := .COMPLETED }

/-- An in-progress session used to witness the no-zero-division theorem. -/
def st10w : GameState :=
  { player := { location := "A" }, collected_items := ∅, move_count := 0,
    status := .IN_PROGRESS }

/-- Fixture for the wall-bump witness: a one-room level whose single room
has a single declared exit "East" (to itself). -/
def lvl5 : Level :=
  { id := "l5", name := "L5", difficulty := .MEDIUM, start_room := "A",
    map := { rooms := [("A", { name := "A", exits := [("East", "A")], item := none })],
             coords := [("A", (0, 0))] },
    rules := { required_items := ∅ },
    visibility := .boundMethod .MEDIUM, scoring := .boundMethod .MEDIUM,
    optimal_moves := some 0 }

/-- The in-progress session of the wall-bump witness. -/
def st5 : GameState :=
  { player := { location := "A" }, visited_rooms := {"A"},
    started_at := "t0", updated_at := "t0" }

/-- Persistence state holding `lvl5` and the active session `st5`. -/
def stores5 : Stores :=
  { levels := [("l5", lvl5)],
    saves := [("u", { user_email := "u", level_id := "l5", state := st5 })],
    history := [] }

/-- The multiplier table of `StandardScore` is keyed by the strings
"easy" / "medium" / "hard", so indexing it with a `Difficulty` enum
member misses for every member. -/
theorem multiplier_lookup_misses (d : Difficulty) :
    DIFFICULTY_MULTIPLIER.lookup (PyKey.difficulty d) = none := by
  cases d <;> rfl

/-- The penalized strategy coincides with the baseline whenever the game
was not completed: its extra branches are only reached on COMPLETED
states. -/
theorem maxMoves_eq_standard_of_not_completed (s : GameState) (l : Level)
    (h : s.status ≠ GameStatus.COMPLETED) :
    MaxMovesScore.calculate s l = StandardScore.calculate s l := by
  unfold MaxMovesScore.calculate
  cases hres : StandardScore.calculate s l <;> simp [hres, h]

/-- The missing-keys list is empty exactly when all seven required
top-level fields are present. -/
theorem missingKeys_nil_iff (defn : LevelDefn) :
    defn.missingKeys = [] ↔
      (defn.id.isSome ∧ defn.name.isSome ∧ defn.difficulty.isSome
        ∧ defn.start_room.isSome ∧ defn.rooms.isSome ∧ defn.coords.isSome
        ∧ defn.rules.isSome) := by
  simp only [LevelDefn.missingKeys, List.append_eq_nil]
  constructor
  · intro h
    refine ⟨?_, ?_, ?_, ?_, ?_, ?_, ?_⟩ <;>
      by_contra hc <;> simp [hc] at h
  · intro h
    simp [h.1, h.2.1, h.2.2.1, h.2.2.2.1, h.2.2.2.2.1, h.2.2.2.2.2.1,
      h.2.2.2.2.2.2]

/-- Every room reachable from "Start" or "End" in `advMap` by declared
exits is again "Start" or "End": the villain room "Lair" has no incoming
exit. -/
theorem advMap_reach (ds : List String) :
    ∀ room, (room = "Start" ∨ room = "End") →
      ∀ r, followMoves advMap room ds = some r → r = "Start" ∨ r = "End" := by
  induction ds with
  | nil =>
      intro room hroom r hr
      simp [followMoves] at hr
      subst hr; exact hroom
  | cons d ds ih =>
      intro room hroom r hr
      rcases hroom with h | h <;> subst h <;>
        simp [followMoves, advMap, List.lookup] at hr
      · cases hd : d == "East" <;> simp [hd] at hr
        exact ih "End" (Or.inr rfl) r hr
      · cases hd : d == "West" <;> simp [hd] at hr
        exact ih "Start" (Or.inl rfl) r hr

/-- A successful association-list lookup exhibits a member of the list. -/
theorem lookup_mem {α : Type} [BEq α] [LawfulBEq α] {β : Type} :
    ∀ {l : List (α × β)} {k : α} {v : β}, l.lookup k = some v → (k, v) ∈ l := by
  intro l
  induction l with
  | nil => intro k v h; simp [List.lookup] at h
  | cons p rest ih =>
      intro k v h
      rcases p with ⟨k0, v0⟩
      by_cases hk : k == k0
      · simp [List.lookup, hk] at h
        subst h
        simp at hk
        subst hk
        exact List.mem_cons_self _ _
      · simp [List.lookup, hk] at h
        exact List.mem_cons_of_mem _ (ih h)

/-- Every member of a list of naturals is bounded by its `foldr max 0`. -/
theorem le_foldr_max {v : Nat} : ∀ {l : List Nat}, v ∈ l → v ≤ l.foldr max 0 := by
  intro l
  induction l with
  | nil => intro h; simp at h
  | cons a rest ih =>
      intro h
      rcases List.mem_cons.mp h with h | h
      · subst h; simp [List.foldr]
      · calc v ≤ rest.foldr max 0 := ih h
          _ ≤ max a (rest.foldr max 0) := le_max_right _ _

/-- Marking an unvisited in-space state visited shrinks the unvisited
part of the state space by exactly one. -/
theorem space_step (g : MapGraph) (req : Finset String)
    {room : String} {items : Finset String}
    {visited : Finset (String × Finset String)}
    (hv : (room, items) ∉ visited)
    (hk : room ∈ bfsKeys g) (hit : items ⊆ req) :
    ((bfsSpace g req) \ insert (room, items) visited).card + 1
      = ((bfsSpace g req) \ visited).card := by
  have hmem : (room, items) ∈ bfsSpace g req \ visited := by
    simp [bfsSpace, Finset.mem_sdiff, Finset.mem_product, Finset.mem_powerset,
      hk, hit, hv]
  rw [Finset.sdiff_insert, Finset.card_erase_of_mem hmem]
  have hpos : 0 < (bfsSpace g req \ visited).card := Finset.card_pos.mpr ⟨_, hmem⟩
  omega

/-- A looked-up room's out-degree is bounded by the map's maximal degree. -/
theorem deg_le_maxDeg (g : MapGraph) {room : String} {r : Room}
    (h : g.rooms.lookup room = some r) :
    r.exits.length ≤ bfsMaxDeg g :=
  le_foldr_max (List.mem_map_of_mem _ (lookup_mem h))

/-- A looked-up room is a declared room name. -/
theorem mem_bfsKeys (g : MapGraph) {room : String} {r : Room}
    (h : g.rooms.lookup room = some r) : room ∈ bfsKeys g := by
  have := List.mem_map_of_mem Prod.fst (lookup_mem h)
  simpa [bfsKeys] using this

/-- The BFS loop never exhausts its fuel while the carried item sets stay
inside the required set and the fuel dominates the measure
`queue length + unvisited states × (max degree + 1)`. -/
theorem bfsLoop_ne_fuelOut (g : MapGraph) (req : Finset String) :
    ∀ fuel queue visited,
      (∀ e ∈ queue, (e.2.1 : Finset String) ⊆ req) →
      queue.length + ((bfsSpace g req) \ visited).card * (bfsMaxDeg g + 1) < fuel →
      bfsLoop g req fuel queue visited ≠ .fuelOut := by
  intro fuel
  induction fuel with
  | zero => intro queue visited _ hlt; omega
  | succ fuel ih =>
      intro queue visited hinv hlt
      match queue with
      | [] => simp [bfsLoop]
      | (room, items, dist) :: rest =>
          by_cases hv : (room, items) ∈ visited
          · rw [show bfsLoop g req (fuel + 1) ((room, items, dist) :: rest) visited
                = bfsLoop g req fuel rest visited by simp [bfsLoop, hv]]
            apply ih rest visited (fun e he => hinv e (List.mem_cons_of_mem _ he))
            simp only [List.length_cons] at hlt
            omega
          · cases hlk : g.rooms.lookup room with
            | none =>
                rw [show bfsLoop g req (fuel + 1) ((room, items, dist) :: rest) visited
                    = .raised .keyError by simp [bfsLoop, hv, hlk]]
                simp
            | some r =>
                have hitems : items ⊆ req := hinv _ (List.mem_cons_self _ _)
                have hitems2 :
                    (match r.item with
                      | some it => if it.name ∈ req then insert it.name items else items
                      | none => items) ⊆ req := by
                  cases hi : r.item with
                  | none => exact hitems
                  | some it =>
                      by_cases hn : it.name ∈ req
                      · simp [hn, Finset.insert_subset_iff, hitems]
                      · simp [hn, hitems]
                by_cases hw : ((match r.item with
                      | some it => it.name == "Villain"
                      | none => false) && decide (req ⊆
                        (match r.item with
                          | some it => if it.name ∈ req then insert it.name items else items
                          | none => items))) = true
                · rw [show bfsLoop g req (fuel + 1) ((room, items, dist) :: rest) visited
                      = .found dist by simp [bfsLoop, hv, hlk, hw]]
                  simp
                · rw [show bfsLoop g req (fuel + 1) ((room, items, dist) :: rest) visited
                      = bfsLoop g req fuel
                          (rest ++ r.exits.map fun d =>
                            (d.2,
                              (match r.item with
                                | some it => if it.name ∈ req then insert it.name items else items
                                | none => items), dist + 1))
                          (insert (room, items) visited) by
                        simp [bfsLoop, hv, hlk, hw]]
                  apply ih
                  · intro e he
                    rcases List.mem_append.mp he with he | he
                    · exact hinv e (List.mem_cons_of_mem _ he)
                    · rcases List.mem_map.mp he with ⟨d, _, rfl⟩
                      exact hitems2
                  · have hcard := space_step g req hv (mem_bfsKeys g hlk) hitems
                    have hdeg := deg_le_maxDeg g hlk
                    simp only [List.length_append, List.length_map, List.length_cons] at hlt ⊢
                    have hU : ((bfsSpace g req) \ visited).card * (bfsMaxDeg g + 1)
                        = ((bfsSpace g req) \ insert (room, items) visited).card * (bfsMaxDeg g + 1)
                          + (bfsMaxDeg g + 1) := by
                      rw [← hcard]; ring
                    generalize ht : ((bfsSpace g req) \ insert (room, items) visited).card
                        * (bfsMaxDeg g + 1) = t at hU ⊢
                    omega

/-- The only exceptions the BFS loop raises are the unsolvable
`LevelValidationError` (empty queue) and `KeyError` (undeclared room). -/
theorem bfsLoop_raised_cases (g : MapGraph) (req : Finset String) :
    ∀ fuel queue visited e,
      bfsLoop g req fuel queue visited = .raised e →
      e = .validation .unsolvable ∨ e = .keyError := by
  intro fuel
  induction fuel with
  | zero => intro queue visited e h; simp [bfsLoop] at h
  | succ fuel ih =>
      intro queue visited e h
      match queue with
      | [] =>
          simp [bfsLoop] at h
          exact Or.inl h.symm
      | (room, items, dist) :: rest =>
          by_cases hv : (room, items) ∈ visited
          · rw [show bfsLoop g req (fuel + 1) ((room, items, dist) :: rest) visited
                = bfsLoop g req fuel rest visited by simp [bfsLoop, hv]] at h
            exact ih rest visited e h
          · cases hlk : g.rooms.lookup room with
            | none =>
                rw [show bfsLoop g req (fuel + 1) ((room, items, dist) :: rest) visited
                    = .raised .keyError by simp [bfsLoop, hv, hlk]] at h
                simp at h
                exact Or.inr h.symm
            | some r =>
                by_cases hw : ((match r.item with
                      | some it => it.name == "Villain"
                      | none => false) && decide (req ⊆
                        (match r.item with
                          | some it => if it.name ∈ req then insert it.name items else items
                          | none => items))) = true
                · rw [show bfsLoop g req (fuel + 1) ((room, items, dist) :: rest) visited
                      = .found dist by simp [bfsLoop, hv, hlk, hw]] at h
                  simp at h
                · rw [show bfsLoop g req (fuel + 1) ((room, items, dist) :: rest) visited
                      = bfsLoop g req fuel
                          (rest ++ r.exits.map fun d =>
                            (d.2,
                              (match r.item with
                                | some it => if it.name ∈ req then insert it.name items else items
                                | none => items), dist + 1))
                          (insert (room, items) visited) by
                        simp [bfsLoop, hv, hlk, hw]] at h
                  exact ih _ _ e h

/-- The fuel bound of `compute_optimal_moves` strictly dominates the
initial measure of the loop. -/
theorem bfsFuel_sufficient (g : MapGraph) (req : Finset String) :
    1 + ((bfsSpace g req) \ ∅).card * (bfsMaxDeg g + 1) < bfsFuel g req := by
  have hS : (bfsSpace g req).card ≤ g.rooms.length * 2 ^ req.card := by
    have h1 : (bfsKeys g).card ≤ g.rooms.length := by
      calc (bfsKeys g).card ≤ (g.rooms.map Prod.fst).length := List.toFinset_card_le _
        _ = g.rooms.length := List.length_map _ _
    calc (bfsSpace g req).card = (bfsKeys g).card * 2 ^ req.card := by
          simp [bfsSpace, Finset.card_product, Finset.card_powerset]
      _ ≤ g.rooms.length * 2 ^ req.card :=
          Nat.mul_le_mul_right _ h1
  have hlt : (bfsSpace g req \ ∅).card * (bfsMaxDeg g + 1)
      < (g.rooms.length * 2 ^ req.card + 1) * (bfsMaxDeg g + 1) := by
    refine Nat.mul_lt_mul_of_lt_of_le ?_ (le_refl _) (Nat.succ_pos _)
    simp only [Finset.sdiff_empty]
    omega
  simp only [bfsFuel]
  omega

/-- On every input, `compute_optimal_moves` terminates with a move count,
the unsolvable validation error, or a `KeyError` (undeclared room): the
bounded encoding never exhausts its fuel. -/
theorem compute_optimal_moves_terminates (g : MapGraph) (start : String)
    (req : Finset String) :
    (∃ n, compute_optimal_moves g start req = .ok n)
    ∨ compute_optimal_moves g start req = .error (.validation .unsolvable)
    ∨ compute_optimal_moves g start req = .error .keyError := by
  have hfuel := bfsLoop_ne_fuelOut g req (bfsFuel g req) [(start, ∅, 0)] ∅
    (by simp) (by simpa using bfsFuel_sufficient g req)
  unfold compute_optimal_moves
  cases hres : bfsLoop g req (bfsFuel g req) [(start, ∅, 0)] ∅ with
  | found n => exact Or.inl ⟨n, by simp⟩
  | raised e =>
      rcases bfsLoop_raised_cases g req _ _ _ _ hres with h | h <;> subst h <;> simp
  | fuelOut => exact absurd hres hfuel

/-- C1: the factory accepts `advDefn` with `optimal_moves = 1`, although
the room the search terminated in holds a *relic* named "Villain", the
unique villain item sits in "Lair", and no sequence of valid moves from
`start_room` ever reaches "Lair" — so no sequence of `optimal_moves`
valid moves ends in the room holding the villain item, contradicting the
claim that the BFS terminates at a state whose room holds the villain
item. -/
theorem C1_factory_accepts_level_with_unreachable_villain :
    LevelFactory.from_definition advDefn = .ok advLevel
    ∧ advLevel.optimal_moves = some 1
    ∧ (advMap.rooms.lookup "End").bind Room.item = some (Item.relic "Villain")
    ∧ (advMap.rooms.lookup "Lair").bind Room.item = some (Item.villain "Boss")
    ∧ (∀ ds : List String, followMoves advMap "Start" ds ≠ some "Lair") := by
  refine ⟨by decide, by decide, by decide, by decide, ?_⟩
  intro ds hds
  rcases advMap_reach ds "Start" (Or.inl rfl) "Lair" hds with h | h <;> simp at h

/-- C6: the search does terminate on every input — with a move count, the
unsolvable validation error, or a `KeyError` on an undeclared room — but
the in-particular half of the claim fails: `advDefn` admits no path that
reaches the villain (no reachable room holds the villain-typed item), yet
construction succeeds instead of failing with a validation error. -/
theorem C6_unsolvable_level_constructed :
    (∀ (g : MapGraph) (start : String) (req : Finset String),
        (∃ n, compute_optimal_moves g start req = .ok n)
        ∨ compute_optimal_moves g start req = .error (.validation .unsolvable)
        ∨ compute_optimal_moves g start req = .error .keyError)
    ∧ (LevelFactory.from_definition advDefn).isOk = true
    ∧ (villainRooms (advDefn.rooms.getD [])).length = 1
    ∧ (∀ ds r, followMoves advMap "Start" ds = some r →
        (advMap.rooms.lookup r).bind Room.item ≠ some (Item.villain "Boss")) := by
  refine ⟨compute_optimal_moves_terminates, by decide, by decide, ?_⟩
  intro ds r hds
  rcases advMap_reach ds "Start" (Or.inl rfl) r hds with h | h <;> subst h <;> decide

/-- C2: on the two-room scenario level built by the factory, a move that
makes the status terminal raises `AttributeError` inside finalization
(the level's `scoring` slot holds the bound policy-resolution method, not
a strategy), so no score is computed, nothing is appended to history and
the active-session record is not deleted. -/
theorem C2_finalize_raises_attribute_error :
    LevelFactory.from_definition defnA = .ok lvlA
    ∧ (GameController.move stores2 "u" "lvl" st2 "East" "t1").err
        = some PyErr.attributeError
    ∧ (GameController.move stores2 "u" "lvl" st2 "East" "t1").state.status
        = GameStatus.GAME_OVER
    ∧ (GameController.move stores2 "u" "lvl" st2 "East" "t1").stores = stores2 :=
  ⟨by decide, by decide, by decide, by decide⟩

/-- C3: `StandardScore.calculate` returns the progress score while the
status is not COMPLETED (here 250 = floor(500 × 1/2)), but on every
COMPLETED state it raises `KeyError`: the multiplier dict is keyed by the
difficulty value strings while the lookup passes the enum member. -/
theorem C3_completed_scoring_raises_key_error :
    StandardScore.calculate st3p lvl3 = .ok 250
    ∧ StandardScore.calculate st3c lvl3 = .error .keyError := by
  constructor
  · have h1 : st3p.collected_items.card = 1 := by decide
    have h2 : lvl3.rules.required_items.card = 2 := by decide
    have h3 : Rat.floor 250 = 250 := by rw [Rat.floor_def']; norm_num
    simp [StandardScore.calculate, h1, h2, st3p, lvl3]
    norm_num [h3]
  · decide

/-- C4: `StandardRules.check` sets COMPLETED with the win message when
the entered room holds a villain item and the collected items cover the
required set, sets GAME_OVER with the loss message when they do not,
leaves the state entirely unchanged on a non-villain room, writes nothing
beyond status and message, and a second immediate call reproduces the
state after the first. -/
theorem C4_standard_rules_check (r : StandardRules) (s : GameState) (room : Room) :
    (∀ vn, room.item = some (Item.villain vn) →
        (r.required_items ⊆ s.collected_items →
          r.check s room =
            { s with status := .COMPLETED,
                     message := some "You defeated the villain!" })
        ∧ (¬ r.required_items ⊆ s.collected_items →
          r.check s room =
            { s with status := .GAME_OVER,
                     message := some "You found the villain too soon." }))
    ∧ ((∀ vn, room.item ≠ some (Item.villain vn)) → r.check s room = s)
    ∧ r.check (r.check s room) room = r.check s room := by
  rcases room with ⟨rn, rex, ritem⟩
  rcases ritem with _ | it
  · simp [StandardRules.check]
  · cases it with
    | relic n => simp [StandardRules.check]
    | villain n =>
        by_cases hsub : r.required_items ⊆ s.collected_items <;>
          simp [StandardRules.check, hsub]

/-- C5: a move in a direction that is not a declared exit of the current
room only sets the wall-bump message and appends the wall-bump event; the
status, move count, player, visited rooms and collected items are
untouched, no exception is raised, and the resulting state is persisted
through the active-session upsert. -/
theorem C5_wall_bump_frame (stores : Stores) (user_email level_id : String)
    (state : GameState) (direction now : String) (level : Level) (room : Room)
    (hterm : state.status.is_terminal = false)
    (hlvl : stores.levels.lookup level_id = some level)
    (hroom : level.map.rooms.lookup state.player.location = some room)
    (hdir : room.exits.lookup direction = none) :
    GameController.move stores user_email level_id state direction now =
      { state :=
          { state with message := some "You bumped into a wall.",
                       event_log := state.event_log ++ ["Bumped into a wall"] },
        stores := stores.upsert_active
          { user_email := user_email, level_id := level_id,
            state :=
              { state with message := some "You bumped into a wall.",
                           event_log := state.event_log ++ ["Bumped into a wall"] } },
        err := none } := by
  simp [GameController.move, hterm, hlvl, hroom, hdir, GameController.autosave]

/-- C5 witness: the wall-bump theorem applied to a concrete session on
`lvl5`, moving "North" where only "East" is declared. -/
theorem C5_wall_bump_frame_witness :
    (st5.status.is_terminal = false)
    ∧ (stores5.levels.lookup "l5" = some lvl5)
    ∧ (lvl5.map.rooms.lookup st5.player.location
        = some { name := "A", exits := [("East", "A")], item := none })
    ∧ (({ name := "A", exits := [("East", "A")], item := none } : Room).exits.lookup "North"
        = none)
    ∧ GameController.move stores5 "u" "l5" st5 "North" "t1" =
      { state :=
          { st5 with message := some "You bumped into a wall.",
                     event_log := st5.event_log ++ ["Bumped into a wall"] },
        stores := stores5.upsert_active
          { user_email := "u", level_id := "l5",
            state :=
              { st5 with message := some "You bumped into a wall.",
                         event_log := st5.event_log ++ ["Bumped into a wall"] } },
        err := none } :=
  ⟨by decide, by decide, by decide, by decide,
    C5_wall_bump_frame stores5 "u" "l5" st5 "North" "t1" lvl5
      { name := "A", exits := [("East", "A")], item := none }
      (by decide) (by decide) (by decide) (by decide)⟩

/-- C7: structural validation succeeds exactly when all five checks pass,
and otherwise reports the first failing check in source order: missing
keys, undeclared start room, an exit to an undeclared room, a room
without coordinates, then a villain count different from one. -/
theorem C7_validate_first_violation_order (defn : LevelDefn) :
    (defn.missingKeys = [] ↔
      (defn.id.isSome ∧ defn.name.isSome ∧ defn.difficulty.isSome
        ∧ defn.start_room.isSome ∧ defn.rooms.isSome ∧ defn.coords.isSome
        ∧ defn.rules.isSome))
    ∧ (validate_level_definition defn = .ok () ↔
      (defn.missingKeys = []
        ∧ ((defn.rooms.getD []).lookup (defn.start_room.getD "")).isSome
        ∧ firstInvalidExit (defn.rooms.getD []) = none
        ∧ firstMissingCoords (defn.rooms.getD []) (defn.coords.getD []) = none
        ∧ (villainRooms (defn.rooms.getD [])).length = 1))
    ∧ (defn.missingKeys ≠ [] →
        validate_level_definition defn = .error (.missingKeys defn.missingKeys))
    ∧ (defn.missingKeys = [] →
        ((defn.rooms.getD []).lookup (defn.start_room.getD "")).isSome = false →
        validate_level_definition defn = .error .startRoomMissing)
    ∧ (defn.missingKeys = [] →
        ((defn.rooms.getD []).lookup (defn.start_room.getD "")).isSome →
        ∀ rt, firstInvalidExit (defn.rooms.getD []) = some rt →
          validate_level_definition defn = .error (.invalidExit rt.1 rt.2))
    ∧ (defn.missingKeys = [] →
        ((defn.rooms.getD []).lookup (defn.start_room.getD "")).isSome →
        firstInvalidExit (defn.rooms.getD []) = none →
        ∀ room, firstMissingCoords (defn.rooms.getD []) (defn.coords.getD []) = some room →
          validate_level_definition defn = .error (.missingCoords room))
    ∧ (defn.missingKeys = [] →
        ((defn.rooms.getD []).lookup (defn.start_room.getD "")).isSome →
        firstInvalidExit (defn.rooms.getD []) = none →
        firstMissingCoords (defn.rooms.getD []) (defn.coords.getD []) = none →
        (villainRooms (defn.rooms.getD [])).length ≠ 1 →
          validate_level_definition defn = .error .villainCount) := by
  refine ⟨missingKeys_nil_iff defn, ?_⟩
  by_cases hmk : defn.missingKeys = []
  · cases hstart : ((defn.rooms.getD []).lookup (defn.start_room.getD "")).isSome with
    | false =>
        have h1 : ((defn.rooms.getD []).lookup (defn.start_room.getD "")).isNone = true := by
          simp [Option.isNone_iff_eq_none, ← Option.not_isSome_iff_eq_none, hstart]
        simp [validate_level_definition, hmk, h1, hstart]
    | true =>
        have h1 : ((defn.rooms.getD []).lookup (defn.start_room.getD "")).isNone = false := by
          simp [Option.isNone_eq_false_iff]
          simp [Option.isSome_iff_ne_none] at hstart
          exact hstart
        cases hfe : firstInvalidExit (defn.rooms.getD []) with
        | some rt =>
            rcases rt with ⟨r, t⟩
            simp [validate_level_definition, hmk, h1, hstart, hfe]
        | none =>
            cases hfc : firstMissingCoords (defn.rooms.getD []) (defn.coords.getD []) with
            | some room => simp [validate_level_definition, hmk, h1, hstart, hfe, hfc]
            | none =>
                by_cases hv : (villainRooms (defn.rooms.getD [])).length = 1 <;>
                  simp [validate_level_definition, hmk, h1, hstart, hfe, hfc, hv]
  · simp [validate_level_definition, hmk]

/-- C8: on a COMPLETED state that exceeded the optimum both strategies
raise `KeyError` (the penalized variant inherits the baseline's multiplier
lookup), so no values exist to compare; on a non-COMPLETED state the two
results are exactly equal. -/
theorem C8_penalized_scoring_raises_key_error :
    MaxMovesScore.calculate st8 lvl8 = .error .keyError
    ∧ StandardScore.calculate st8 lvl8 = .error .keyError
    ∧ MaxMovesScore.calculate st8p lvl8 = StandardScore.calculate st8p lvl8 :=
  ⟨by decide, by decide,
    maxMoves_eq_standard_of_not_completed st8p lvl8 (by decide)⟩

/-- C9: serializing a `GameState` and deserializing the result reproduces
the state exactly — in particular the player location, player inventory,
move count, status and event log (order preserved). -/
theorem C9_gamestate_round_trip (state : GameState) :
    gamestate_from_dict (gamestate_to_dict state) = .ok state := by
  rcases state with ⟨⟨loc, inv⟩, vr, ci, mc, st, msg, el, sa, ua, ev⟩
  cases st <;>
    simp [gamestate_to_dict, gamestate_from_dict, GameStatus.value,
      GameStatus.ofValue?, Finset.sort_toFinset]

/-- C10 (amended): under the precondition (status not COMPLETED, or at
least one move taken) `StandardScore.calculate` never raises
`ZeroDivisionError`, and on every non-COMPLETED state it is total; it is
not total on COMPLETED states, where the multiplier lookup raises
`KeyError` (see the counterexample). -/
theorem C10_no_zero_division (s : GameState) (l : Level)
    (h : s.status ≠ GameStatus.COMPLETED ∨ 1 ≤ s.move_count) :
    StandardScore.calculate s l ≠ .error .zeroDivisionError
    ∧ (s.status ≠ GameStatus.COMPLETED →
        ∃ n : Int, StandardScore.calculate s l = .ok n) := by
  by_cases hc : s.status = GameStatus.COMPLETED
  · have hm : s.move_count ≠ 0 := by
      rcases h with h | h
      · exact absurd hc h
      · omega
    refine ⟨?_, fun hne => absurd hc hne⟩
    cases hom : l.optimal_moves with
    | none => simp [StandardScore.calculate, hc, hom]
    | some om =>
        simp [StandardScore.calculate, hc, hom, hm, multiplier_lookup_misses]
  · simp [StandardScore.calculate, hc]

/-- C10 witness: the no-zero-division theorem applied to a fresh
in-progress session with zero moves. -/
theorem C10_no_zero_division_witness :
    (st10w.status ≠ GameStatus.COMPLETED ∨ 1 ≤ st10w.move_count)
    ∧ (StandardScore.calculate st10w lvl10c ≠ .error .zeroDivisionError
        ∧ (st10w.status ≠ GameStatus.COMPLETED →
            ∃ n : Int, StandardScore.calculate st10w lvl10c = .ok n)) :=
  ⟨Or.inl (by decide), C10_no_zero_division st10w lvl10c (Or.inl (by decide))⟩

/-- C10 counterexample: a COMPLETED two-move session satisfies the
claim's precondition, yet `StandardScore.calculate` raises `KeyError`
instead of returning a score — the function is not total under the
precondition. -/
theorem C10_totality_counterexample :
    (st10c.status ≠ GameStatus.COMPLETED ∨ 1 ≤ st10c.move_count)
    ∧ StandardScore.calculate st10c lvl10c = .error .keyError :=
  ⟨Or.inr (by decide), by decide⟩
